import Mathlib

/-!
Shallow embedding of the frame-driven animation logic of
src/src/app/components/scene.jsx (a React Three Fiber space scene).

Every animated component follows the same pattern: a per-frame callback reads
the shared elapsed-time clock, computes positions / scales / rotations from
its own immutable parameters and interaction state, and writes them into its
transform.  We embed each per-frame callback as a pure Lean function on an
explicit state record; JavaScript numbers are modelled as real numbers.
-/

namespace SceneJsx

noncomputable section

open Real

/-- A three-component vector, standing for a three.js position / scale /
direction value. -/
structure Vec3 where
  x : ℝ
  y : ℝ
  z : ℝ

/-! ## Asteroid field (scene.jsx lines 420-483) -/

/-- Immutable per-asteroid data generated once at construction
(scene.jsx lines 425-442).  The concrete random draws are irrelevant to the
claims, so the fields are arbitrary reals: px, py, pz are the generated
initial position, speed the orbit speed, rotationSpeed the tumble speed and
orbit the phase offset. -/
structure AsteroidData where
  px : ℝ
  py : ℝ
  pz : ℝ
  size : ℝ
  speed : ℝ
  rotationSpeed : ℝ
  orbit : ℝ

/-- Mutable per-asteroid mesh state: position and rotation, as written each
frame (scene.jsx lines 447-461). -/
structure AsteroidState where
  pos : Vec3
  rotX : ℝ
  rotY : ℝ
  rotZ : ℝ

/-- Orbit radius recomputed each frame from the immutable generated data
(scene.jsx line 453): Math.sqrt(data.position[0]^2 + data.position[2]^2). -/
def orbitRadius (d : AsteroidData) : ℝ :=
  Real.sqrt (d.px ^ 2 + d.pz ^ 2)

/-- Asteroid x coordinate written in a frame at elapsed time t
(scene.jsx line 454): Math.sin(time * data.speed + data.orbit) * orbitRadius. -/
def asteroidOrbitX (t : ℝ) (d : AsteroidData) : ℝ :=
  Real.sin (t * d.speed + d.orbit) * orbitRadius d

/-- Asteroid z coordinate written in a frame at elapsed time t
(scene.jsx line 455): Math.cos(time * data.speed + data.orbit) * orbitRadius. -/
def asteroidOrbitZ (t : ℝ) (d : AsteroidData) : ℝ :=
  Real.cos (t * d.speed + d.orbit) * orbitRadius d

/-- One frame of the asteroid update (scene.jsx lines 447-461): position.x and
position.z are overwritten from the orbit formulas, position.y is not touched,
and the three rotation components are incremented. -/
def asteroidFrame (t : ℝ) (d : AsteroidData) (a : AsteroidState) : AsteroidState :=
  { pos := ⟨asteroidOrbitX t d, a.pos.y, asteroidOrbitZ t d⟩
    rotX := a.rotX + d.rotationSpeed
    rotY := a.rotY + d.rotationSpeed * 0.8
    rotZ := a.rotZ + d.rotationSpeed * 0.6 }

/-- Running the asteroid update over a whole sequence of frames, given the
elapsed time of each frame (earliest first). -/
def asteroidRun (d : AsteroidData) (a : AsteroidState) : List ℝ → AsteroidState
  | [] => a
  | t :: ts => asteroidRun d (asteroidFrame t d a) ts

/-! ## Wormhole (scene.jsx lines 202-296) -/

/-- Radius of wormhole ring i, 0-based (scene.jsx line 211):
i * 0.2 + 0.5. -/
def ringRadius (i : ℕ) : ℝ := i * 0.2 + 0.5

/-- Speed of wormhole ring i, 0-based (scene.jsx line 212): 0.02 / (i + 1). -/
def ringSpeed (i : ℕ) : ℝ := 0.02 / ((i : ℝ) + 1)

/-- JavaScript truncation toward zero of a real number, used by the JS
remainder operator. -/
def jsTrunc (a : ℝ) : ℝ := if 0 ≤ a then (⌊a⌋ : ℝ) else (⌈a⌉ : ℝ)

/-- The JavaScript remainder operator a % b (sign follows the dividend). -/
def jsMod (a b : ℝ) : ℝ := a - b * jsTrunc (a / b)

/-- Per-ring progress (scene.jsx line 229): (time * rings[i].speed) % 1. -/
def ringProgress (t : ℝ) (i : ℕ) : ℝ := jsMod (t * ringSpeed i) 1

/-- Mutable state of one wormhole ring mesh: depth (position.z), scale,
rotation and material opacity, as written each frame
(scene.jsx lines 225-245). -/
structure RingState where
  posZ : ℝ
  scaleX : ℝ
  scaleY : ℝ
  scaleZ : ℝ
  rotX : ℝ
  rotY : ℝ
  rotZ : ℝ
  opacity : ℝ

/-- One frame of the update of wormhole ring i at elapsed time t under the
active flag (scene.jsx lines 225-245): depth, scale and opacity are the
funnel formulas when active and the static fallback (0, 1, 0.5) when not;
rotation.x and rotation.z are incremented unconditionally;
scale.set(scale, scale, 1) always writes 1 to the z scale. -/
def ringFrame (active : Bool) (t : ℝ) (i : ℕ) (r : RingState) : RingState :=
  let progress := ringProgress t i
  { posZ := if active then -10 * progress else 0
    scaleX := if active then 1 - progress * 0.5 else 1
    scaleY := if active then 1 - progress * 0.5 else 1
    scaleZ := 1
    rotX := r.rotX + 0.001
    rotY := r.rotY
    rotZ := r.rotZ + 0.002
    opacity := if active then 0.7 - progress * 0.5 else 0.5 }

/-! ## Pulsating star (scene.jsx lines 485-544) -/

/-- Pulse speed of a pulsating star as a function of its hover state
(scene.jsx line 495): hovered ? 5 : 2. -/
def pulseSpeed (hovered : Bool) : ℝ := if hovered then 5 else 2

/-- Pulsation scale factor for elapsed time t and pulse speed s
(scene.jsx line 496): 1 + Math.sin(time * pulseSpeed) * 0.2. -/
def pulseScale (t s : ℝ) : ℝ := 1 + Real.sin (t * s) * 0.2

/-- Glow mesh scale (scene.jsx line 500): pulseScale * 2. -/
def glowScale (t s : ℝ) : ℝ := pulseScale t s * 2

/-- The scale a pulsating star writes in the frame at elapsed time t given its
current hovered state (scene.jsx lines 491-497). -/
def starFrameScale (t : ℝ) (hovered : Bool) : ℝ :=
  pulseScale t (pulseSpeed hovered)

/-! ## Control panel (scene.jsx lines 332-418) -/

/-- Target scale of the control panel determined by its expanded state
(scene.jsx line 347): expanded ? 1 : 0.5. -/
def panelTargetScale (expanded : Bool) : ℝ := if expanded then 1 else 0.5

/-- One step of three.js Vector3.lerp with factor 0.1 on one component
(scene.jsx line 348): current + (target - current) * 0.1. -/
def lerpStep (current target : ℝ) : ℝ := current + (target - current) * 0.1

/-- Panel scale over consecutive frames with a constant target: frame 0 holds
the starting scale, each later frame applies the lerp step
(scene.jsx line 348). -/
def panelScaleSeq (c0 target : ℝ) : ℕ → ℝ
  | 0 => c0
  | n + 1 => lerpStep (panelScaleSeq c0 target n) target

/-- Fixed position the panel writes each frame (scene.jsx lines 342-343):
position.set(0, -0.8, -distance) with distance = 2. -/
def panelFramePos : Vec3 := ⟨0, -0.8, -2⟩

/-- Direction from the panel to the camera.  three.js lookAt(camera.position)
(scene.jsx line 344) derives the written orientation from exactly this
direction, so we record the direction as the panel's orientation output. -/
def panelLookDir (cameraPos : Vec3) : Vec3 :=
  ⟨cameraPos.x - panelFramePos.x, cameraPos.y - panelFramePos.y,
    cameraPos.z - panelFramePos.z⟩

/-! ## Planet system moons (scene.jsx lines 79-200) -/

/-- Immutable data of one moon (scene.jsx lines 89-93). -/
structure MoonData where
  radius : ℝ
  distance : ℝ
  speed : ℝ

/-- The moon list (scene.jsx lines 89-93):
radius / distance / speed triples. -/
def moons : List MoonData :=
  [⟨0.4, 3, 0.5⟩, ⟨0.2, 4, 0.3⟩, ⟨0.3, 5, 0.2⟩]

/-- three.js rotation of a point about the y axis by angle a. -/
def rotateY (a : ℝ) (v : Vec3) : Vec3 :=
  ⟨v.x * Real.cos a + v.z * Real.sin a, v.y,
    -v.x * Real.sin a + v.z * Real.cos a⟩

/-- Rotation of the shared moon-orbit group after n frames
(scene.jsx line 110): rotation.y += 0.005 each frame, starting from 0.
The increment is per frame, not derived from elapsed time, and does not use
any moon's speed field. -/
def moonOrbitAngle (n : ℕ) : ℝ := 0.005 * n

/-- Static y rotation of moon i's own group (scene.jsx line 157):
(Math.PI * 2 / moons.length) * i with moons.length = 3. -/
def moonGroupAngle (i : ℕ) : ℝ := (2 * π / 3) * i

/-- Position of moon i relative to the planet group after n frames: the mesh
sits at [distance, 0, 0] (scene.jsx line 160) inside its group rotated by
moonGroupAngle i (line 157), inside the orbit group rotated by
moonOrbitAngle n (line 110). -/
def moonWorldPos (i : ℕ) (n : ℕ) : Vec3 :=
  rotateY (moonOrbitAngle n)
    (rotateY (moonGroupAngle i) ⟨(moons.getD i ⟨0, 0, 0⟩).distance, 0, 0⟩)

/-! ## Starfield speed slider (scene.jsx lines 548, 623-631) -/

/-- Declared min attribute of the starfield-speed range input
(scene.jsx line 625). -/
def sliderMin : ℝ := 0.1

/-- Declared max attribute of the starfield-speed range input
(scene.jsx line 626). -/
def sliderMax : ℝ := 2

/-- Value reported by the HTML range input for an attempted value: per the
HTML standard a range input clamps its value to the declared [min, max]
attributes (scene.jsx lines 625-626); the onChange handler (line 629) then
stores parseFloat of that reported value into the starfieldSpeed state
without further processing. -/
def starfieldSpeedAfterSet (attempted : ℝ) : ℝ :=
  max sliderMin (min sliderMax attempted)

/-! ## Scene-level frame composition -/

/-- State of the control panel group. -/
structure PanelState where
  scale : ℝ
  expanded : Bool

/-- The per-frame-written pieces of scene state that the claims are about:
the camera transform (moved only by user input, never by a useFrame
callback), the black hole's accretion disk rotation, glow scale and center y
position (scene.jsx lines 16-28), one pulsating star (lines 491-502), the
wormhole's active flag and ring 0 (lines 221-249), one asteroid
(lines 444-462), and the control panel (lines 338-349) whose written
orientation we record as the look direction. -/
structure SceneState where
  cameraPos : Vec3
  diskRotZ : ℝ
  glowSc : ℝ
  bhPosY : ℝ
  starHovered : Bool
  starScale : ℝ
  wormActive : Bool
  ring0 : RingState
  asteroidData0 : AsteroidData
  asteroid0 : AsteroidState
  panel : PanelState
  panelDir : Vec3

/-- One composed frame at elapsed time t: every useFrame callback of the
scene runs once (scene.jsx lines 16-28, 221-249, 338-349, 444-462, 491-502).
Interaction state (hover / active / expanded flags) and the camera are only
changed by user input between frames, so the frame leaves them unchanged. -/
def sceneFrame (t : ℝ) (s : SceneState) : SceneState :=
  { cameraPos := s.cameraPos
    diskRotZ := s.diskRotZ + 0.001
    glowSc := (1 + Real.sin t * 0.05) * 3
    bhPosY := Real.sin (t * 0.2) * 0.2
    starHovered := s.starHovered
    starScale := starFrameScale t s.starHovered
    wormActive := s.wormActive
    ring0 := ringFrame s.wormActive t 0 s.ring0
    asteroidData0 := s.asteroidData0
    asteroid0 := asteroidFrame t s.asteroidData0 s.asteroid0
    panel := ⟨lerpStep s.panel.scale (panelTargetScale s.panel.expanded),
      s.panel.expanded⟩
    panelDir := panelLookDir s.cameraPos }

end

open Real

/-! ## Theorems -/

/-- C1: for every asteroid and every elapsed time t ≥ 0, the position written
by the per-frame orbit update satisfies x^2 + z^2 = r^2, where r is the
asteroid's fixed orbital radius (the distance from the y axis of its
initially generated position), for any fixed orbit speed and phase offset. -/
theorem C1_asteroid_orbit_radius_invariant (t : ℝ) (d : AsteroidData)
    (a : AsteroidState) (ht : 0 ≤ t) :
    ((asteroidFrame t d a).pos.x) ^ 2 + ((asteroidFrame t d a).pos.z) ^ 2 =
      orbitRadius d ^ 2 := by
  show (asteroidOrbitX t d) ^ 2 + (asteroidOrbitZ t d) ^ 2 = orbitRadius d ^ 2
  unfold asteroidOrbitX asteroidOrbitZ
  linear_combination (orbitRadius d) ^ 2 * Real.sin_sq_add_cos_sq (t * d.speed + d.orbit)

/-- Witness for C1 at t = 0 and a concrete asteroid. -/
theorem C1_asteroid_orbit_radius_invariant_witness :
    (0 : ℝ) ≤ 0 ∧
    ((asteroidFrame 0 ⟨3, 1, 4, 1, 1, 1, 0⟩ ⟨⟨3, 1, 4⟩, 0, 0, 0⟩).pos.x) ^ 2 +
        ((asteroidFrame 0 ⟨3, 1, 4, 1, 1, 1, 0⟩ ⟨⟨3, 1, 4⟩, 0, 0, 0⟩).pos.z) ^ 2 =
      orbitRadius ⟨3, 1, 4, 1, 1, 1, 0⟩ ^ 2 :=
  ⟨le_refl 0, C1_asteroid_orbit_radius_invariant 0 _ _ (le_refl 0)⟩

/-- Y coordinate is preserved by any sequence of asteroid frames. -/
theorem asteroidRun_pos_y (d : AsteroidData) :
    ∀ (ts : List ℝ) (a : AsteroidState), (asteroidRun d a ts).pos.y = a.pos.y
  | [], _ => rfl
  | t :: ts, a => by
    show (asteroidRun d (asteroidFrame t d a) ts).pos.y = a.pos.y
    rw [asteroidRun_pos_y d ts (asteroidFrame t d a)]
    rfl

/-- C10: the per-frame asteroid update overwrites only the x and z position
components and the rotation; the y position component is never touched, so it
stays equal to the initially generated y value over any sequence of frames. -/
theorem C10_asteroid_y_component_constant (d : AsteroidData) (a : AsteroidState) :
    (∀ t, (asteroidFrame t d a).pos.y = a.pos.y) ∧
    (∀ t, (asteroidFrame t d a).pos.x = asteroidOrbitX t d) ∧
    (∀ t, (asteroidFrame t d a).pos.z = asteroidOrbitZ t d) ∧
    (∀ ts : List ℝ, (asteroidRun d a ts).pos.y = a.pos.y) :=
  ⟨fun _ => rfl, fun _ => rfl, fun _ => rfl, fun ts => asteroidRun_pos_y d ts a⟩

/-- C4: the pulsation scale 1 + sin(s·t)·0.2 is periodic in t with period
2π/s, stays within [1 - 0.2, 1 + 0.2], and the glow scale is the core scale
times the fixed multiplier 2. -/
theorem C4_pulse_periodic_and_bounded (t s : ℝ) (hs : s ≠ 0) :
    pulseScale (t + 2 * π / s) s = pulseScale t s ∧
    1 - 0.2 ≤ pulseScale t s ∧ pulseScale t s ≤ 1 + 0.2 ∧
    glowScale t s = pulseScale t s * 2 := by
  refine ⟨?_, ?_, ?_, rfl⟩
  · unfold pulseScale
    have harg : (t + 2 * π / s) * s = t * s + 2 * π := by
      field_simp
    rw [harg, Real.sin_add_two_pi]
  · have h := Real.neg_one_le_sin (t * s)
    unfold pulseScale
    linarith
  · have h := Real.sin_le_one (t * s)
    unfold pulseScale
    linarith

/-- Witness for C4 at t = 0 and the non-hovered pulse speed s = 2. -/
theorem C4_pulse_periodic_and_bounded_witness :
    (2 : ℝ) ≠ 0 ∧
    (pulseScale (0 + 2 * π / 2) 2 = pulseScale 0 2 ∧
      1 - 0.2 ≤ pulseScale 0 2 ∧ pulseScale 0 2 ≤ 1 + 0.2 ∧
      glowScale 0 2 = pulseScale 0 2 * 2) :=
  ⟨by norm_num, C4_pulse_periodic_and_bounded 0 2 (by norm_num)⟩

/-- C5: a frame computed while hovered uses pulse speed 5 and a frame
computed while not hovered uses pulse speed 2; the frame computation is a
pure function of the current hover state, so the switch takes effect on the
very next frame after the state changes, with no transition lag. -/
theorem C5_hover_switches_pulse_speed :
    pulseSpeed true = 5 ∧ pulseSpeed false = 2 ∧
    (∀ t, starFrameScale t true = pulseScale t 5) ∧
    (∀ t, starFrameScale t false = pulseScale t 2) ∧
    (∀ t s, (sceneFrame t s).starScale =
      pulseScale t (if s.starHovered then 5 else 2)) :=
  ⟨rfl, rfl, fun _ => rfl, fun _ => rfl, fun _ _ => rfl⟩

/-- For a nonnegative elapsed time the ring progress is the fractional part
of t * speed. -/
theorem ringProgress_eq_fract (t : ℝ) (i : ℕ) (ht : 0 ≤ t) :
    ringProgress t i = Int.fract (t * ringSpeed i) := by
  have hsp : 0 ≤ ringSpeed i := by
    unfold ringSpeed
    positivity
  have ha : 0 ≤ t * ringSpeed i := mul_nonneg ht hsp
  unfold ringProgress jsMod jsTrunc
  rw [div_one, if_pos ha, Int.fract]
  ring

/-- C2: while the wormhole is active, ring i has speed 0.02/(i+1), its
progress (t * speed) mod 1 lies in [0, 1), its depth offset is -10 times the
progress, its x and y scales shrink linearly as 1 - 0.5 * progress and its
opacity fades linearly as 0.7 - 0.5 * progress. -/
theorem C2_wormhole_active_funnel (i : ℕ) (t : ℝ) (r : RingState) (ht : 0 ≤ t) :
    ringSpeed i = 0.02 / ((i : ℝ) + 1) ∧
    0 ≤ ringProgress t i ∧ ringProgress t i < 1 ∧
    (ringFrame true t i r).posZ = -10 * ringProgress t i ∧
    (ringFrame true t i r).scaleX = 1 - 0.5 * ringProgress t i ∧
    (ringFrame true t i r).scaleY = 1 - 0.5 * ringProgress t i ∧
    (ringFrame true t i r).opacity = 0.7 - 0.5 * ringProgress t i := by
  have hf := ringProgress_eq_fract t i ht
  refine ⟨rfl, ?_, ?_, ?_, ?_, ?_, ?_⟩
  · rw [hf]
    exact Int.fract_nonneg _
  · rw [hf]
    exact Int.fract_lt_one _
  · show (if true then -10 * ringProgress t i else 0) = -10 * ringProgress t i
    rw [if_pos rfl]
  · show (if true then 1 - ringProgress t i * 0.5 else 1) = 1 - 0.5 * ringProgress t i
    rw [if_pos rfl]
    ring
  · show (if true then 1 - ringProgress t i * 0.5 else 1) = 1 - 0.5 * ringProgress t i
    rw [if_pos rfl]
    ring
  · show (if true then 0.7 - ringProgress t i * 0.5 else 0.5) = 0.7 - 0.5 * ringProgress t i
    rw [if_pos rfl]
    ring

/-- Witness for C2 on ring 0 at t = 0. -/
theorem C2_wormhole_active_funnel_witness :
    (0 : ℝ) ≤ 0 ∧
    (ringSpeed 0 = 0.02 / ((0 : ℕ) + 1 : ℝ) ∧
      0 ≤ ringProgress 0 0 ∧ ringProgress 0 0 < 1 ∧
      (ringFrame true 0 0 ⟨0, 1, 1, 1, 0, 0, 0, 0.5⟩).posZ = -10 * ringProgress 0 0 ∧
      (ringFrame true 0 0 ⟨0, 1, 1, 1, 0, 0, 0, 0.5⟩).scaleX = 1 - 0.5 * ringProgress 0 0 ∧
      (ringFrame true 0 0 ⟨0, 1, 1, 1, 0, 0, 0, 0.5⟩).scaleY = 1 - 0.5 * ringProgress 0 0 ∧
      (ringFrame true 0 0 ⟨0, 1, 1, 1, 0, 0, 0, 0.5⟩).opacity = 0.7 - 0.5 * ringProgress 0 0) :=
  ⟨le_refl 0, C2_wormhole_active_funnel 0 0 ⟨0, 1, 1, 1, 0, 0, 0, 0.5⟩ (le_refl 0)⟩

/-- C3 counterexample: one inactive frame starting from a ring at rotation 0
changes the ring's rotation.x component (the source increments rotation.x by
0.001 and rotation.z by 0.002 every frame, active or not), so the ring does
not hold every transform component fixed while inactive. -/
theorem C3_counterexample :
    (ringFrame false 0 0 ⟨0, 1, 1, 1, 0, 0, 0, 0.5⟩).rotX ≠
      (⟨0, 1, 1, 1, 0, 0, 0, 0.5⟩ : RingState).rotX := by
  show (0 : ℝ) + 0.001 ≠ 0
  norm_num

/-- C3 amended: while inactive, every wormhole ring's depth, scale and
opacity hold the static fallback pose (position.z = 0, scale = (1, 1, 1),
opacity = 0.5); toggling active to false restores that fallback on the next
frame from any prior state, and further inactive frames leave those
components unchanged; the ring's rotation, however, keeps incrementing by
(0.001, 0, 0.002) every frame, active or not. -/
theorem C3_inactive_fallback_pose (t : ℝ) (i : ℕ) (r : RingState) :
    ((ringFrame false t i r).posZ = 0 ∧
      (ringFrame false t i r).scaleX = 1 ∧
      (ringFrame false t i r).scaleY = 1 ∧
      (ringFrame false t i r).scaleZ = 1 ∧
      (ringFrame false t i r).opacity = 0.5) ∧
    ((ringFrame false t i r).rotX = r.rotX + 0.001 ∧
      (ringFrame false t i r).rotY = r.rotY ∧
      (ringFrame false t i r).rotZ = r.rotZ + 0.002) ∧
    (∀ t2, (ringFrame false t2 i (ringFrame false t i r)).posZ =
        (ringFrame false t i r).posZ ∧
      (ringFrame false t2 i (ringFrame false t i r)).scaleX =
        (ringFrame false t i r).scaleX ∧
      (ringFrame false t2 i (ringFrame false t i r)).scaleY =
        (ringFrame false t i r).scaleY ∧
      (ringFrame false t2 i (ringFrame false t i r)).scaleZ =
        (ringFrame false t i r).scaleZ ∧
      (ringFrame false t2 i (ringFrame false t i r)).opacity =
        (ringFrame false t i r).opacity) :=
  ⟨⟨rfl, rfl, rfl, rfl, rfl⟩, ⟨rfl, rfl, rfl⟩,
    fun _ => ⟨rfl, rfl, rfl, rfl, rfl⟩⟩

/-- One lerp step toward a target above the current value does not go past
the target. -/
theorem lerpStep_le_target {c tg : ℝ} (h : c ≤ tg) : lerpStep c tg ≤ tg := by
  unfold lerpStep
  linarith

/-- One lerp step toward a target above the current value does not move
down. -/
theorem le_lerpStep_self {c tg : ℝ} (h : c ≤ tg) : c ≤ lerpStep c tg := by
  unfold lerpStep
  linarith

/-- One lerp step toward a target below the current value does not go past
the target. -/
theorem target_le_lerpStep {c tg : ℝ} (h : tg ≤ c) : tg ≤ lerpStep c tg := by
  unfold lerpStep
  linarith

/-- One lerp step toward a target below the current value does not move
up. -/
theorem lerpStep_le_self {c tg : ℝ} (h : tg ≤ c) : lerpStep c tg ≤ c := by
  unfold lerpStep
  linarith

/-- The panel scale stays at or below a target it starts at or below. -/
theorem panelScaleSeq_le_target (c0 tg : ℝ) (h : c0 ≤ tg) :
    ∀ n, panelScaleSeq c0 tg n ≤ tg
  | 0 => h
  | n + 1 => lerpStep_le_target (panelScaleSeq_le_target c0 tg h n)

/-- The panel scale stays at or above a target it starts at or above. -/
theorem target_le_panelScaleSeq (c0 tg : ℝ) (h : tg ≤ c0) :
    ∀ n, tg ≤ panelScaleSeq c0 tg n
  | 0 => h
  | n + 1 => target_le_lerpStep (target_le_panelScaleSeq c0 tg h n)

/-- C6: across consecutive frames with a constant expanded/collapsed state
(hence a constant target scale), the panel's lerped scale moves monotonically
toward the target and never overshoots: starting below the target it never
rises above it, starting above it never drops below it. -/
theorem C6_panel_scale_monotone_no_overshoot (expanded : Bool) (c0 : ℝ) :
    (c0 ≤ panelTargetScale expanded →
      ∀ n, panelScaleSeq c0 (panelTargetScale expanded) n ≤
          panelScaleSeq c0 (panelTargetScale expanded) (n + 1) ∧
        panelScaleSeq c0 (panelTargetScale expanded) (n + 1) ≤
          panelTargetScale expanded) ∧
    (panelTargetScale expanded ≤ c0 →
      ∀ n, panelScaleSeq c0 (panelTargetScale expanded) (n + 1) ≤
          panelScaleSeq c0 (panelTargetScale expanded) n ∧
        panelTargetScale expanded ≤
          panelScaleSeq c0 (panelTargetScale expanded) (n + 1)) := by
  constructor
  · intro h n
    have hle := panelScaleSeq_le_target c0 (panelTargetScale expanded) h n
    exact ⟨le_lerpStep_self hle, lerpStep_le_target hle⟩
  · intro h n
    have hge := target_le_panelScaleSeq c0 (panelTargetScale expanded) h n
    exact ⟨lerpStep_le_self hge, target_le_lerpStep hge⟩

/-- Witness for C6: starting scale 0 below the expanded target, the first
lerp step moves up and stays at or below the target. -/
theorem C6_panel_scale_monotone_no_overshoot_witness :
    (0 : ℝ) ≤ panelTargetScale true ∧
    (panelScaleSeq 0 (panelTargetScale true) 0 ≤
        panelScaleSeq 0 (panelTargetScale true) 1 ∧
      panelScaleSeq 0 (panelTargetScale true) 1 ≤ panelTargetScale true) :=
  ⟨by norm_num [panelTargetScale],
    (C6_panel_scale_monotone_no_overshoot true 0).1
      (by norm_num [panelTargetScale]) 0⟩

/-- C8: whatever value the user attempts to set through the starfield-speed
slider, the stored starfield speed lands in [0.1, 2.0]; a value below the
minimum or above the maximum is clamped to the nearest bound, and an
in-range value is stored as is. -/
theorem C8_slider_speed_clamped (v : ℝ) :
    sliderMin ≤ starfieldSpeedAfterSet v ∧ starfieldSpeedAfterSet v ≤ sliderMax ∧
    (v < sliderMin → starfieldSpeedAfterSet v = sliderMin) ∧
    (sliderMax < v → starfieldSpeedAfterSet v = sliderMax) ∧
    (sliderMin ≤ v → v ≤ sliderMax → starfieldSpeedAfterSet v = v) := by
  unfold starfieldSpeedAfterSet sliderMin sliderMax
  refine ⟨le_max_left _ _, ?_, ?_, ?_, ?_⟩
  · exact max_le (by norm_num) (min_le_left _ _)
  · intro hv
    rw [min_eq_right (by linarith), max_eq_left (by linarith)]
  · intro hv
    rw [min_eq_left (by linarith), max_eq_right (by norm_num)]
  · intro hv1 hv2
    rw [min_eq_right hv2, max_eq_right hv1]

/-- Witness for C8 at the out-of-range attempted value 3. -/
theorem C8_slider_speed_clamped_witness :
    sliderMax < (3 : ℝ) ∧ starfieldSpeedAfterSet 3 = sliderMax :=
  ⟨by norm_num [sliderMax], (C8_slider_speed_clamped 3).2.2.2.1
    (by norm_num [sliderMax])⟩

/-- The x coordinate of the distance-4 moon (index 1) at frame 0 is
4 * cos(2π/3) = -2, because its own group is statically rotated by 2π/3 and
the shared orbit group starts at rotation 0. -/
theorem moon_one_frame_zero_x : (moonWorldPos 1 0).x = -2 := by
  have hangle : moonGroupAngle 1 = π - π / 3 := by
    unfold moonGroupAngle
    push_cast
    ring
  have hcos : Real.cos (moonGroupAngle 1) = -(1 / 2) := by
    rw [hangle, Real.cos_pi_sub, Real.cos_pi_div_three]
  have horbit : moonOrbitAngle 0 = 0 := by
    unfold moonOrbitAngle
    norm_num
  show (rotateY (moonOrbitAngle 0)
    (rotateY (moonGroupAngle 1) ⟨(moons.getD 1 ⟨0, 0, 0⟩).distance, 0, 0⟩)).x = -2
  rw [horbit]
  unfold rotateY
  simp only [Real.cos_zero, Real.sin_zero, moons, List.getD]
  rw [hcos]
  norm_num [List.getElem?_cons_succ, List.getElem?_cons_zero]

/-- C7 counterexample: the code has no moon with both orbit speed 0.5 and
orbit distance 4 (the speed-0.5 moon has distance 3, the distance-4 moon has
speed 0.3), and the distance-4 moon is not at position (0, y0, 4) at frame 0:
its x coordinate is -2, not 0, because the moons sit on statically rotated
arms of a shared orbit group instead of following sin/cos of elapsed time. -/
theorem C7_counterexample :
    ((moons.getD 0 ⟨0, 0, 0⟩).speed = 0.5 ∧ (moons.getD 0 ⟨0, 0, 0⟩).distance = 3) ∧
    ((moons.getD 1 ⟨0, 0, 0⟩).distance = 4 ∧ (moons.getD 1 ⟨0, 0, 0⟩).speed = 0.3) ∧
    (moonWorldPos 1 0).x = -2 ∧
    ¬((moonWorldPos 1 0).x = 0 ∧ (moonWorldPos 1 0).z = 4) := by
  refine ⟨⟨rfl, rfl⟩, ⟨rfl, rfl⟩, moon_one_frame_zero_x, ?_⟩
  intro h
  rw [moon_one_frame_zero_x] at h
  exact absurd h.1 (by norm_num)

/-- C7 amended: the per-moon speed values are never used for orbital motion;
all moons revolve on one shared group whose y rotation advances by 0.005
radians per frame (not per unit of elapsed time).  The distance-4 moon is
moon index 1 (its data speed is 0.3, while the speed-0.5 moon has distance
3); after n frames it sits at (4·cos(0.005·n + 2π/3), 0,
-4·sin(0.005·n + 2π/3)) relative to the planet, so at frame 0 it is at x =
-2, not at (0, y0, 4), and it returns to its initial position exactly when
0.005·n is a multiple of 2π. -/
theorem C7_moon_orbit_as_implemented :
    (∀ n : ℕ, moonWorldPos 1 n =
      ⟨4 * Real.cos (moonOrbitAngle n + moonGroupAngle 1), 0,
        -(4 * Real.sin (moonOrbitAngle n + moonGroupAngle 1))⟩) ∧
    (moons.getD 0 ⟨0, 0, 0⟩).distance = 3 ∧
    (moons.getD 1 ⟨0, 0, 0⟩).speed = 0.3 ∧
    (∀ n k : ℕ, moonOrbitAngle n = 2 * π * k →
      moonWorldPos 1 n = moonWorldPos 1 0) := by
  have hpos : ∀ n : ℕ, moonWorldPos 1 n =
      ⟨4 * Real.cos (moonOrbitAngle n + moonGroupAngle 1), 0,
        -(4 * Real.sin (moonOrbitAngle n + moonGroupAngle 1))⟩ := by
    intro n
    show rotateY (moonOrbitAngle n)
        (rotateY (moonGroupAngle 1) ⟨(moons.getD 1 ⟨0, 0, 0⟩).distance, 0, 0⟩) = _
    unfold rotateY
    have hd : (moons.getD 1 ⟨0, 0, 0⟩).distance = 4 := rfl
    rw [hd]
    dsimp only
    simp only [Vec3.mk.injEq]
    refine ⟨?_, trivial, ?_⟩
    · rw [Real.cos_add]
      ring
    · rw [Real.sin_add]
      ring
  refine ⟨hpos, rfl, rfl, ?_⟩
  intro n k hk
  rw [hpos n, hpos 0]
  have h0 : moonOrbitAngle 0 = 0 := by
    unfold moonOrbitAngle
    norm_num
  rw [hk, h0, zero_add]
  have h2 : 2 * π * (k : ℝ) + moonGroupAngle 1 =
      moonGroupAngle 1 + (k : ℝ) * (2 * π) := by
    ring
  rw [h2, Real.cos_add_nat_mul_two_pi, Real.sin_add_nat_mul_two_pi]

/-- Witness for the amended C7 theorem at n = 0, k = 0. -/
theorem C7_moon_orbit_as_implemented_witness :
    moonOrbitAngle 0 = 2 * π * (0 : ℕ) ∧ moonWorldPos 1 0 = moonWorldPos 1 0 :=
  ⟨by norm_num [moonOrbitAngle],
    C7_moon_orbit_as_implemented.2.2.2 0 0 (by norm_num [moonOrbitAngle])⟩

/-- A concrete scene state used to exercise the composed frame. -/
def sampleScene : SceneState :=
  ⟨⟨0, 2, 15⟩, 0, 1, 0, false, 1, false, ⟨0, 1, 1, 1, 0, 0, 0, 0.5⟩,
    ⟨3, 1, 4, 1, 1, 1, 0⟩, ⟨⟨3, 1, 4⟩, 0, 0, 0⟩, ⟨0.5, false⟩, ⟨0, 0, 0⟩⟩

/-- The same scene state with only the camera moved. -/
def sampleSceneMovedCam : SceneState :=
  ⟨⟨10, 2, 15⟩, 0, 1, 0, false, 1, false, ⟨0, 1, 1, 1, 0, 0, 0, 0.5⟩,
    ⟨3, 1, 4, 1, 1, 1, 0⟩, ⟨⟨3, 1, 4⟩, 0, 0, 0⟩, ⟨0.5, false⟩, ⟨0, 0, 0⟩⟩

/-- C9 counterexample: two scene states identical in every animated object's
own state and parameters, differing only in the camera transform, produce
different control-panel orientations in the same frame, because the panel
calls lookAt(camera.position); so the panel's written transform is not a
function only of (elapsed time, own parameters, own interaction state). -/
theorem C9_counterexample :
    sampleScene.panel = sampleSceneMovedCam.panel ∧
    (sceneFrame 0 sampleScene).panelDir ≠ (sceneFrame 0 sampleSceneMovedCam).panelDir := by
  refine ⟨rfl, ?_⟩
  intro h
  have hx := congrArg Vec3.x h
  have hx0 : (sceneFrame 0 sampleScene).panelDir.x = 0 := by
    show (0 : ℝ) - 0 = 0
    norm_num
  have hx10 : (sceneFrame 0 sampleSceneMovedCam).panelDir.x = 10 := by
    show (10 : ℝ) - 0 = 10
    norm_num
  rw [hx0, hx10] at hx
  exact absurd hx (by norm_num)

/-- C9 amended: in the composed frame, the black hole, pulsating star,
wormhole rings and asteroids each write transforms that are functions only of
the elapsed time and their own state and parameters - no animated object
reads another animated object's transform - but the control panel
additionally reads the camera's position (lookAt), so its written orientation
depends on the camera transform as well as its own state. -/
theorem C9_object_frame_independence (t : ℝ) (s1 s2 : SceneState) :
    ((sceneFrame t s1).glowSc = (sceneFrame t s2).glowSc ∧
      (sceneFrame t s1).bhPosY = (sceneFrame t s2).bhPosY) ∧
    (s1.diskRotZ = s2.diskRotZ →
      (sceneFrame t s1).diskRotZ = (sceneFrame t s2).diskRotZ) ∧
    (s1.starHovered = s2.starHovered →
      (sceneFrame t s1).starScale = (sceneFrame t s2).starScale) ∧
    (s1.wormActive = s2.wormActive → s1.ring0 = s2.ring0 →
      (sceneFrame t s1).ring0 = (sceneFrame t s2).ring0) ∧
    (s1.asteroidData0 = s2.asteroidData0 → s1.asteroid0 = s2.asteroid0 →
      (sceneFrame t s1).asteroid0 = (sceneFrame t s2).asteroid0) ∧
    (s1.panel = s2.panel → s1.cameraPos = s2.cameraPos →
      (sceneFrame t s1).panel = (sceneFrame t s2).panel ∧
        (sceneFrame t s1).panelDir = (sceneFrame t s2).panelDir) := by
  refine ⟨⟨rfl, rfl⟩, ?_, ?_, ?_, ?_, ?_⟩
  · intro h
    show s1.diskRotZ + 0.001 = s2.diskRotZ + 0.001
    rw [h]
  · intro h
    show starFrameScale t s1.starHovered = starFrameScale t s2.starHovered
    rw [h]
  · intro h1 h2
    show ringFrame s1.wormActive t 0 s1.ring0 = ringFrame s2.wormActive t 0 s2.ring0
    rw [h1, h2]
  · intro h1 h2
    show asteroidFrame t s1.asteroidData0 s1.asteroid0 =
      asteroidFrame t s2.asteroidData0 s2.asteroid0
    rw [h1, h2]
  · intro h1 h2
    constructor
    · show (⟨lerpStep s1.panel.scale (panelTargetScale s1.panel.expanded),
          s1.panel.expanded⟩ : PanelState) =
        ⟨lerpStep s2.panel.scale (panelTargetScale s2.panel.expanded),
          s2.panel.expanded⟩
      rw [h1]
    · show panelLookDir s1.cameraPos = panelLookDir s2.cameraPos
      rw [h2]

/-- Witness for the amended C9 theorem: the concrete sample scene compared
with itself satisfies every agreement hypothesis by reflexivity. -/
theorem C9_object_frame_independence_witness :
    (sceneFrame 0 sampleScene).diskRotZ = (sceneFrame 0 sampleScene).diskRotZ ∧
    (sceneFrame 0 sampleScene).starScale = (sceneFrame 0 sampleScene).starScale ∧
    (sceneFrame 0 sampleScene).ring0 = (sceneFrame 0 sampleScene).ring0 ∧
    (sceneFrame 0 sampleScene).asteroid0 = (sceneFrame 0 sampleScene).asteroid0 ∧
    (sceneFrame 0 sampleScene).panel = (sceneFrame 0 sampleScene).panel ∧
    (sceneFrame 0 sampleScene).panelDir = (sceneFrame 0 sampleScene).panelDir :=
  ⟨(C9_object_frame_independence 0 sampleScene sampleScene).2.1 rfl,
    (C9_object_frame_independence 0 sampleScene sampleScene).2.2.1 rfl,
    (C9_object_frame_independence 0 sampleScene sampleScene).2.2.2.1 rfl rfl,
    (C9_object_frame_independence 0 sampleScene sampleScene).2.2.2.2.1 rfl rfl,
    ((C9_object_frame_independence 0 sampleScene sampleScene).2.2.2.2.2 rfl rfl).1,
    ((C9_object_frame_independence 0 sampleScene sampleScene).2.2.2.2.2 rfl rfl).2⟩

end SceneJsx
